import Mathlib

/-!
Shallow embedding of sus_unified_dbt_project/run_pipeline_dbt.py.

Modelling conventions:
* An ACTIVITY_DATE is an integer count of days since 1970-01-01, which was a
  Thursday.  The Python method date.weekday() (Monday = 0, ..., Sunday = 6)
  therefore becomes (d + 3) % 7.
* The DAY_LABEL string produced by strftime("%d/%m/%Y") is in bijection with
  the underlying date, and the script only ever uses it as a grouping and
  ordering key that mirrors the date itself; we model the label by the date.
* A RECORDS cell is either missing (pandas NaN / None, detected by pd.isna),
  a numeric value (Python ints and floats are modelled by the rationals), or
  a present value on which float() raises (for example a non-numeric string).
* Statistics (mean, std) are floating point in the source; we model them by
  real numbers, with pandas Series.std() being the sample standard deviation
  (ddof = 1).
-/

/-- Value held in a RECORDS cell: missing (NaN/None), numeric, or a present
value that float() cannot convert. -/
inductive RecVal where
  | na : RecVal
  | num (q : ℚ) : RecVal
  | nonNumeric : RecVal
  deriving DecidableEq

/-- One long-format row of an activity query result: columns PROVIDER,
ACTIVITY_DATE, RECORDS (run_pipeline_dbt.py lines 287-306). -/
structure ActivityRow where
  provider : String
  activityDate : ℤ
  records : RecVal
  deriving DecidableEq

/-- Python date.weekday() (Monday = 0, ..., Sunday = 6) for a day count since
1970-01-01, a Thursday (weekday 3). -/
def pyWeekday (d : ℤ) : ℤ := (d + 3) % 7

/-- Three-letter day name written into the WEEKDAY display column:
dt.day_name().str[:3] (line 133). -/
def weekdayAbbrev (d : ℤ) : String :=
  if pyWeekday d = 0 then "Mon"
  else if pyWeekday d = 1 then "Tue"
  else if pyWeekday d = 2 then "Wed"
  else if pyWeekday d = 3 then "Thu"
  else if pyWeekday d = 4 then "Fri"
  else if pyWeekday d = 5 then "Sat"
  else "Sun"

/-- Weekend test used throughout the script: activity_date.weekday() >= 5
(lines 147-148, 182, 193, 231). -/
def is_weekend (d : ℤ) : Bool := decide (5 ≤ pyWeekday d)

/-- Python int() applied to a float: truncation toward zero. -/
def pyTrunc (q : ℚ) : ℤ := if 0 ≤ q then ⌊q⌋ else ⌈q⌉

/-- Python float() applied to a RECORDS value: numeric values convert, a
non-convertible value raises (modelled as none).  The na case is irrelevant
because map_status tests pd.isna first. -/
def pyFloat : RecVal → Option ℚ
  | RecVal.num q => some q
  | _ => none

/-- Value written into a grid cell by map_status: the string "MISSING" or the
truncated integer int(val). -/
inductive MappedCell where
  | missing : MappedCell
  | intval (n : ℤ) : MappedCell
  deriving DecidableEq

/-- Transliteration of map_status (lines 159-165): MISSING when pd.isna(val);
otherwise MISSING if float(val) == 0 else int(val), with any conversion
exception also yielding MISSING. -/
def map_status (val : RecVal) : MappedCell :=
  if val = RecVal.na then MappedCell.missing
  else
    match pyFloat val with
    | none => MappedCell.missing
    | some q => if q = 0 then MappedCell.missing else MappedCell.intval (pyTrunc q)

/-- Cell of the reindexed pivot df.pivot(index PROVIDER, columns DAY_LABEL,
values RECORDS) (lines 140-141): the RECORDS value of the input row for this
provider and date, NaN when no such row exists.  The pivot raises on
duplicate provider/date pairs; the long format has one row per provider per
date, and we take the first matching row. -/
def pivot_records (rows : List ActivityRow) (p : String) (d : ℤ) : RecVal :=
  match rows.find? (fun r => r.provider == p && r.activityDate == d) with
  | some r => r.records
  | none => RecVal.na

/-- Row index of the grid: sorted(df["PROVIDER"].unique()) (line 138). -/
def gridProviders (rows : List ActivityRow) : List String :=
  ((rows.map ActivityRow.provider).dedup).mergeSort (fun a b => decide (a ≤ b))

/-- Column index of the grid: the distinct dates sorted ascending
(day_order / day_labels_sorted, lines 135-136), with labels modelled by their
underlying dates. -/
def gridDates (rows : List ActivityRow) : List ℤ :=
  ((rows.map ActivityRow.activityDate).dedup).mergeSort (fun a b => decide (a ≤ b))

/-- Qualifying baseline sample for one provider and one weekday class
(lines 146-152): the RECORDS of the rows of that provider whose date falls in
the class, restricted by series.notna() & (series > 0) to present, strictly
positive numeric values. -/
def qualifying (rows : List ActivityRow) (p : String) (wk : Bool) : List ℚ :=
  (rows.filter (fun r => r.provider == p && is_weekend r.activityDate == wk)).filterMap
    (fun r =>
      match r.records with
      | RecVal.num q => if 0 < q then some q else none
      | _ => none)

/-- Mean of a sample, as pandas Series.mean(). -/
noncomputable def sampleMean (l : List ℚ) : ℝ :=
  ((l.map (fun q => (q : ℝ))).sum) / (l.length : ℝ)

/-- Sample standard deviation, as pandas Series.std() with ddof = 1. -/
noncomputable def sampleStd (l : List ℚ) : ℝ :=
  Real.sqrt (((l.map (fun q => ((q : ℝ) - sampleMean l) ^ 2)).sum) / ((l.length : ℝ) - 1))

/-- Baseline statistics dict mean/std (line 154). -/
structure Stats where
  mean : ℝ
  std : ℝ

/-- Transliteration of the provider_stats computation (lines 150-157): the
baseline for one provider and one weekday class is present exactly when more
than 2 qualifying values exist, and then holds their mean and sample std. -/
noncomputable def provider_stats (rows : List ActivityRow) (p : String) (wk : Bool) :
    Option Stats :=
  let valid := qualifying rows p wk
  if 2 < valid.length then some ⟨sampleMean valid, sampleStd valid⟩ else none

/-- Fill colors used by the renderers (lines 102-103, 203-206). -/
inductive Fill where
  | red : Fill
  | green : Fill
  | yellow : Fill
  | orange : Fill
  deriving DecidableEq

open Classical in
/-- Transliteration of the per-cell coloring (lines 226-245): MISSING cells
are red; numeric cells with a present baseline of positive std are colored by
z_score = abs((float(value) - mean) / std), orange when z > 3, yellow when
z > 2, green otherwise; numeric cells with no baseline or a non-positive std
are green. -/
noncomputable def classifyCell (stats : Option Stats) (c : MappedCell) : Fill :=
  match c with
  | MappedCell.missing => Fill.red
  | MappedCell.intval n =>
    match stats with
    | some st =>
      if 0 < st.std then
        if 3 < |((n : ℝ) - st.mean) / st.std| then Fill.orange
        else if 2 < |((n : ℝ) - st.mean) / st.std| then Fill.yellow
        else Fill.green
      else Fill.green
    | none => Fill.green

/-- Fill of the grid cell at one provider and one date (lines 220-245): the
baseline of the weekend class when the date is a weekend and of the weekday
class otherwise is applied to the map_status value of the pivot cell. -/
noncomputable def cellFill (rows : List ActivityRow) (p : String) (d : ℤ) : Fill :=
  classifyCell (provider_stats rows p (is_weekend d)) (map_status (pivot_records rows p d))

/-- One row of the PROVIDER_MISSING_SUMMARY query result (lines 67-76). -/
structure SummaryRow where
  provider : String
  apcMissingDays : ℤ
  opMissingDays : ℤ
  ecdsMissingDays : ℤ
  totalMissingSubmissions : ℤ
  actionRequired : String
  deriving DecidableEq

/-- Value of a worksheet cell written by the summary renderer, a string or an
integer. -/
inductive WsVal where
  | s (v : String) : WsVal
  | i (n : ℤ) : WsVal
  deriving DecidableEq

/-- Worksheet data row appended by build_summary_table (lines 91-99): the six
cells Provider, APC, OP, ECDS, Total, Action in order. -/
def summaryWsRow (r : SummaryRow) : List WsVal :=
  [WsVal.s r.provider, WsVal.i r.apcMissingDays, WsVal.i r.opMissingDays,
   WsVal.i r.ecdsMissingDays, WsVal.i r.totalMissingSubmissions, WsVal.s r.actionRequired]

/-- Fills applied to one summary data row (lines 118-128): the tuple
unpacking takes the fifth cell as total, and int(total.value) > 0 turns every
cell of the row red, otherwise every cell green.  The empty list models the
exception int() would raise on a non-integer fifth cell, which cannot happen
for rows written by summaryWsRow. -/
def summaryRowFills (r : SummaryRow) : List Fill :=
  match (summaryWsRow r)[4]? with
  | some (WsVal.i t) =>
    if 0 < t then List.replicate (summaryWsRow r).length Fill.red
    else List.replicate (summaryWsRow r).length Fill.green
  | _ => []

/-- Fills of all data rows of the summary block, one list per input row in
order (lines 118-128 iterate the worksheet rows holding the appended df
rows). -/
def build_summary_fills (df : List SummaryRow) : List (List Fill) :=
  df.map summaryRowFills

/-- Activity DataFrame as passed to build_pivot_table: the three query
columns, plus the display-only DAY_LABEL and WEEKDAY columns when present
(labels modelled by their dates). -/
structure ActivityDF where
  rows : List ActivityRow
  dayLabelCol : Option (List ℤ)
  weekdayCol : Option (List String)
  deriving DecidableEq

/-- pd.to_datetime applied to an ACTIVITY_DATE column that already holds
datetimes (query_snowflake_activity normalized it at line 52) is the
identity; dates are dates in this model. -/
def to_datetime (d : ℤ) : ℤ := d

/-- Effect of build_pivot_table on its input DataFrame (lines 131-133): the
only writes are ACTIVITY_DATE = to_datetime(ACTIVITY_DATE) and the two
display columns DAY_LABEL and WEEKDAY derived from it. -/
def build_pivot_table_frame (df : ActivityDF) : ActivityDF :=
  { rows := df.rows.map (fun r => { r with activityDate := to_datetime r.activityDate }),
    dayLabelCol := some (df.rows.map (fun r => to_datetime r.activityDate)),
    weekdayCol := some (df.rows.map (fun r => weekdayAbbrev (to_datetime r.activityDate))) }

/-- Effect of build_summary_table on its input DataFrame: lines 82-128 only
read df.iterrows() and never assign into df. -/
def build_summary_table_frame (df : List SummaryRow) : List SummaryRow := df

/-! Helper lemmas shared by several developments. -/

lemma pyWeekday_nonneg (d : ℤ) : 0 ≤ pyWeekday d :=
  Int.emod_nonneg _ (by norm_num)

lemma pyWeekday_lt_seven (d : ℤ) : pyWeekday d < 7 :=
  Int.emod_lt_of_pos _ (by norm_num)

lemma classifyCell_of_missing (st : Option Stats) :
    classifyCell st MappedCell.missing = Fill.red := rfl

lemma provider_stats_congr (rows1 rows2 : List ActivityRow) (p : String) (wk : Bool)
    (h : qualifying rows1 p wk = qualifying rows2 p wk) :
    provider_stats rows1 p wk = provider_stats rows2 p wk := by
  unfold provider_stats
  rw [h]

lemma map_status_num_zero : map_status (RecVal.num 0) = MappedCell.missing := by decide

lemma summaryWsRow_total (r : SummaryRow) :
    (summaryWsRow r)[4]? = some (WsVal.i r.totalMissingSubmissions) := rfl

/-! Theorems for the claims. -/

/-- Claim C3: a grid cell with no input row for its provider and date, or with a
record count exactly equal to zero, is classified MISSING and rendered red,
whatever the baseline statistics are. -/
theorem C3_missing_cells (rows : List ActivityRow) (p : String) (d : ℤ) :
    ((∀ r ∈ rows, ¬(r.provider = p ∧ r.activityDate = d)) →
      pivot_records rows p d = RecVal.na) ∧
    ((pivot_records rows p d = RecVal.na ∨ pivot_records rows p d = RecVal.num 0) →
      map_status (pivot_records rows p d) = MappedCell.missing ∧
      (∀ st, classifyCell st (map_status (pivot_records rows p d)) = Fill.red) ∧
      cellFill rows p d = Fill.red) := by
  constructor
  · intro h
    unfold pivot_records
    have hnone : rows.find? (fun r => r.provider == p && r.activityDate == d) = none := by
      rw [List.find?_eq_none]
      intro r hr
      simp only [Bool.and_eq_true, beq_iff_eq]
      exact fun hc => h r hr hc
    rw [hnone]
  · intro h
    have hm : map_status (pivot_records rows p d) = MappedCell.missing := by
      rcases h with h | h <;> rw [h]
      · rfl
      · exact map_status_num_zero
    refine ⟨hm, fun st => by rw [hm]; exact classifyCell_of_missing st, ?_⟩
    unfold cellFill
    rw [hm]
    exact classifyCell_of_missing _

/-- Witness for claim C3: in a one-row input, the absent provider/date combination is an
absent cell, classified MISSING and rendered red. -/
theorem C3_missing_cells_witness :
    pivot_records [⟨"A", 0, RecVal.num 5⟩] "A" 1 = RecVal.na ∧
    cellFill [⟨"A", 0, RecVal.num 5⟩] "A" 1 = Fill.red := by
  refine ⟨(C3_missing_cells [⟨"A", 0, RecVal.num 5⟩] "A" 1).1 (by decide), ?_⟩
  exact ((C3_missing_cells [⟨"A", 0, RecVal.num 5⟩] "A" 1).2
    (Or.inl ((C3_missing_cells [⟨"A", 0, RecVal.num 5⟩] "A" 1).1 (by decide)))).2.2

/-- Claim C9: a present record value on which float() raises is classified MISSING
by the cell-mapping function instead of propagating the exception. -/
theorem C9_nonconvertible (v : RecVal) (h1 : v ≠ RecVal.na) (h2 : pyFloat v = none) :
    map_status v = MappedCell.missing := by
  unfold map_status
  rw [if_neg h1, h2]

/-- Witness for claim C9: the non-convertible value is present, float() fails on it, and
map_status sends it to MISSING. -/
theorem C9_nonconvertible_witness :
    RecVal.nonNumeric ≠ RecVal.na ∧ pyFloat RecVal.nonNumeric = none ∧
    map_status RecVal.nonNumeric = MappedCell.missing :=
  ⟨by decide, rfl, C9_nonconvertible RecVal.nonNumeric (by decide) rfl⟩

/-- Claim C10: a grid cell holding a record value strictly between 0 and 1 is mapped
to the truncated integer 0, hence displayed as 0, and is classified through
the z-score branch, never MISSING red. -/
theorem C10_fractional_cells (rows : List ActivityRow) (p : String) (d : ℤ) (q : ℚ)
    (hq : pivot_records rows p d = RecVal.num q) (h0 : 0 < q) (h1 : q < 1) :
    map_status (pivot_records rows p d) = MappedCell.intval 0 ∧
    cellFill rows p d ≠ Fill.red := by
  have hm : map_status (pivot_records rows p d) = MappedCell.intval 0 := by
    rw [hq]
    have hunfold : map_status (RecVal.num q) =
        if q = 0 then MappedCell.missing else MappedCell.intval (pyTrunc q) := rfl
    have ht : pyTrunc q = 0 := by
      unfold pyTrunc
      rw [if_pos h0.le]
      exact Int.floor_eq_zero_iff.mpr ⟨h0.le, h1⟩
    rw [hunfold, if_neg (ne_of_gt h0), ht]
  refine ⟨hm, ?_⟩
  unfold cellFill
  rw [hm]
  rcases hst : provider_stats rows p (is_weekend d) with _ | st
  · simp [classifyCell]
  · simp only [classifyCell]
    split_ifs <;> simp

/-- Witness for claim C10: a record value of one half is displayed as the integer 0 and
its cell is not rendered as MISSING red. -/
theorem C10_fractional_cells_witness :
    pivot_records [⟨"A", 0, RecVal.num (1/2)⟩] "A" 0 = RecVal.num (1/2) ∧
    map_status (pivot_records [⟨"A", 0, RecVal.num (1/2)⟩] "A" 0) = MappedCell.intval 0 ∧
    cellFill [⟨"A", 0, RecVal.num (1/2)⟩] "A" 0 ≠ Fill.red := by
  refine ⟨rfl, ?_, ?_⟩
  · exact (C10_fractional_cells [⟨"A", 0, RecVal.num (1/2)⟩] "A" 0 (1/2)
      rfl (by norm_num) (by norm_num)).1
  · exact (C10_fractional_cells [⟨"A", 0, RecVal.num (1/2)⟩] "A" 0 (1/2)
      rfl (by norm_num) (by norm_num)).2

/-- Claim C6: every summary data row is rendered with six cells that are all red
when the total-missing count of the written row is positive, and all green
otherwise. -/
theorem C6_summary_row_coloring (df : List SummaryRow) (i : ℕ) (r : SummaryRow)
    (h : df[i]? = some r) :
    (build_summary_fills df)[i]? = some (summaryRowFills r) ∧
    (summaryRowFills r).length = 6 ∧
    (0 < r.totalMissingSubmissions → ∀ f ∈ summaryRowFills r, f = Fill.red) ∧
    (¬ 0 < r.totalMissingSubmissions → ∀ f ∈ summaryRowFills r, f = Fill.green) := by
  have hred : summaryRowFills r =
      if 0 < r.totalMissingSubmissions then List.replicate 6 Fill.red
      else List.replicate 6 Fill.green := rfl
  refine ⟨?_, ?_, ?_, ?_⟩
  · unfold build_summary_fills
    rw [List.getElem?_map, h]
    rfl
  · rw [hred]
    split_ifs <;> rfl
  · intro ht f hf
    rw [hred, if_pos ht] at hf
    exact List.eq_of_mem_replicate hf
  · intro ht f hf
    rw [hred, if_neg ht] at hf
    exact List.eq_of_mem_replicate hf

/-- Witness for claim C6: the row with total 2 is all red, the row with total 0 is all
green, and the fills line up with the input rows in order. -/
theorem C6_summary_row_coloring_witness :
    (∀ f ∈ summaryRowFills ⟨"Trust B", 2, 0, 0, 2, "Contact"⟩, f = Fill.red) ∧
    (∀ f ∈ summaryRowFills ⟨"Trust A", 0, 0, 0, 0, "None"⟩, f = Fill.green) ∧
    (build_summary_fills [⟨"Trust A", 0, 0, 0, 0, "None"⟩, ⟨"Trust B", 2, 0, 0, 2, "Contact"⟩])[1]? =
      some (summaryRowFills ⟨"Trust B", 2, 0, 0, 2, "Contact"⟩) := by
  refine ⟨?_, ?_, ?_⟩
  · exact (C6_summary_row_coloring
      [⟨"Trust A", 0, 0, 0, 0, "None"⟩, ⟨"Trust B", 2, 0, 0, 2, "Contact"⟩] 1
      ⟨"Trust B", 2, 0, 0, 2, "Contact"⟩ rfl).2.2.1 (by decide)
  · exact (C6_summary_row_coloring
      [⟨"Trust A", 0, 0, 0, 0, "None"⟩, ⟨"Trust B", 2, 0, 0, 2, "Contact"⟩] 0
      ⟨"Trust A", 0, 0, 0, 0, "None"⟩ rfl).2.2.2 (by decide)
  · exact (C6_summary_row_coloring
      [⟨"Trust A", 0, 0, 0, 0, "None"⟩, ⟨"Trust B", 2, 0, 0, 2, "Contact"⟩] 1
      ⟨"Trust B", 2, 0, 0, 2, "Contact"⟩ rfl).1

/-- Claim C8: the renderers do not change the input data: build_pivot_table leaves
the PROVIDER, ACTIVITY_DATE and RECORDS of every row intact and only adds the
display-only label and weekday columns, and build_summary_table writes
nothing into its input. -/
theorem C8_renderer_frame (df : ActivityDF) (dfs : List SummaryRow) :
    (build_pivot_table_frame df).rows = df.rows ∧
    (build_pivot_table_frame df).rows.map ActivityRow.provider =
      df.rows.map ActivityRow.provider ∧
    (build_pivot_table_frame df).rows.map ActivityRow.records =
      df.rows.map ActivityRow.records ∧
    (build_pivot_table_frame df).dayLabelCol =
      some (df.rows.map (fun r => to_datetime r.activityDate)) ∧
    build_summary_table_frame dfs = dfs := by
  have hrows : (build_pivot_table_frame df).rows = df.rows := by
    show df.rows.map (fun r => { r with activityDate := to_datetime r.activityDate }) = df.rows
    have hfun : (fun r : ActivityRow => { r with activityDate := to_datetime r.activityDate }) =
        fun r => r := by
      funext r
      rfl
    rw [hfun]
    exact List.map_id df.rows
  exact ⟨hrows, by rw [hrows], by rw [hrows], rfl, rfl⟩

lemma provider_stats_def (rows : List ActivityRow) (p : String) (wk : Bool) :
    provider_stats rows p wk =
      if 2 < (qualifying rows p wk).length then
        some ⟨sampleMean (qualifying rows p wk), sampleStd (qualifying rows p wk)⟩
      else none := rfl

lemma classifyCell_intval (st : Stats) (n : ℤ) :
    classifyCell (some st) (MappedCell.intval n) =
      if 0 < st.std then
        if 3 < |((n : ℝ) - st.mean) / st.std| then Fill.orange
        else if 2 < |((n : ℝ) - st.mean) / st.std| then Fill.yellow
        else Fill.green
      else Fill.green := rfl

/-- Claim C1: under a present baseline of positive standard deviation, a numeric
cell is orange (SEVERE) exactly above z-score 3, yellow (MODERATE) on the
interval open at 2 and closed at 3, and green (NORMAL) at or below 2, so the
boundary values 2 and 3 fall in the lower-severity bucket. -/
theorem C1_zscore_thresholds (rows : List ActivityRow) (p : String) (d : ℤ)
    (st : Stats) (n : ℤ)
    (hst : provider_stats rows p (is_weekend d) = some st)
    (hstd : 0 < st.std)
    (hcell : map_status (pivot_records rows p d) = MappedCell.intval n) :
    (3 < |((n : ℝ) - st.mean) / st.std| → cellFill rows p d = Fill.orange) ∧
    (2 < |((n : ℝ) - st.mean) / st.std| ∧ |((n : ℝ) - st.mean) / st.std| ≤ 3 →
      cellFill rows p d = Fill.yellow) ∧
    (|((n : ℝ) - st.mean) / st.std| ≤ 2 → cellFill rows p d = Fill.green) := by
  have hcf : cellFill rows p d = classifyCell (some st) (MappedCell.intval n) := by
    unfold cellFill
    rw [hst, hcell]
  rw [hcf, classifyCell_intval, if_pos hstd]
  refine ⟨fun h3 => by rw [if_pos h3], ?_, ?_⟩
  · rintro ⟨h2, h3⟩
    rw [if_neg (not_lt.mpr h3), if_pos h2]
  · intro h2
    rw [if_neg (not_lt.mpr (h2.trans (by norm_num))), if_neg (not_lt.mpr h2)]

def exRows1 : List ActivityRow :=
  [⟨"P", 0, RecVal.num 10⟩, ⟨"P", 1, RecVal.num 12⟩,
   ⟨"P", 4, RecVal.num 14⟩, ⟨"P", 5, RecVal.num (-8)⟩]

lemma qualifying_ex1 : qualifying exRows1 "P" false = [10, 12, 14] := by decide

lemma sampleMean_ex1 : sampleMean [10, 12, 14] = 12 := by
  unfold sampleMean
  norm_num

lemma sampleStd_ex1 : sampleStd [10, 12, 14] = 2 := by
  have h4 : sampleStd [10, 12, 14] = Real.sqrt 4 := by
    unfold sampleStd
    rw [sampleMean_ex1]
    norm_num
  rw [h4, show (4 : ℝ) = 2 ^ 2 by norm_num, Real.sqrt_sq (by norm_num : (0 : ℝ) ≤ 2)]

lemma provider_stats_ex1 : provider_stats exRows1 "P" false = some ⟨12, 2⟩ := by
  rw [provider_stats_def, qualifying_ex1, if_pos (by decide : 2 < ([10, 12, 14] : List ℚ).length),
    sampleMean_ex1, sampleStd_ex1]

/-- Witness for claim C1: with weekday baseline mean 12 and std 2 computed from the
values 10, 12 and 14, the non-qualifying cell value -8 has z-score 10 and is
rendered orange. -/
theorem C1_zscore_thresholds_witness :
    provider_stats exRows1 "P" (is_weekend 5) = some ⟨12, 2⟩ ∧
    cellFill exRows1 "P" 5 = Fill.orange := by
  have hst : provider_stats exRows1 "P" (is_weekend 5) = some ⟨12, 2⟩ := provider_stats_ex1
  refine ⟨hst, ?_⟩
  exact (C1_zscore_thresholds exRows1 "P" 5 ⟨12, 2⟩ (-8) hst (by norm_num)
    (by decide)).1 (by norm_num)

/-- Claim C5: a date is tagged weekend exactly when its three-letter day name is
Sat or Sun, and the fill of a cell depends only on the qualifying sample of
the weekday class the date belongs to together with the cell value, so a
weekend cell uses the weekend baseline exclusively and a weekday cell the
weekday baseline exclusively. -/
theorem C5_weekend_baseline (d : ℤ) :
    (is_weekend d = true ↔ (weekdayAbbrev d = "Sat" ∨ weekdayAbbrev d = "Sun")) ∧
    (∀ rows1 rows2 : List ActivityRow, ∀ p : String,
      qualifying rows1 p (is_weekend d) = qualifying rows2 p (is_weekend d) →
      pivot_records rows1 p d = pivot_records rows2 p d →
      cellFill rows1 p d = cellFill rows2 p d) := by
  constructor
  · have h0 := pyWeekday_nonneg d
    have h7 := pyWeekday_lt_seven d
    have hcases : pyWeekday d = 0 ∨ pyWeekday d = 1 ∨ pyWeekday d = 2 ∨ pyWeekday d = 3 ∨
        pyWeekday d = 4 ∨ pyWeekday d = 5 ∨ pyWeekday d = 6 := by omega
    unfold is_weekend weekdayAbbrev
    rcases hcases with h | h | h | h | h | h | h <;> rw [h] <;> simp
  · intro rows1 rows2 p hq hp
    unfold cellFill
    rw [provider_stats_congr rows1 rows2 p (is_weekend d) hq, hp]

def exRows5a : List ActivityRow := [⟨"A", 0, RecVal.num 10⟩, ⟨"A", 2, RecVal.num 7⟩]

def exRows5b : List ActivityRow := [⟨"A", 1, RecVal.num 99⟩, ⟨"A", 2, RecVal.num 7⟩]

/-- Witness for claim C5: day 2 since the epoch is a Saturday; two inputs that agree on
the weekend sample and on the Saturday cell, but hold different weekday data,
give that cell the same fill. -/
theorem C5_weekend_baseline_witness :
    is_weekend 2 = true ∧
    cellFill exRows5a "A" 2 = cellFill exRows5b "A" 2 := by
  refine ⟨(C5_weekend_baseline 2).1.mpr (Or.inl rfl), ?_⟩
  exact (C5_weekend_baseline 2).2 exRows5a exRows5b "A" (by decide) rfl

/-- Claim C2: the baseline sample of a provider and weekday class consists of
strictly positive numeric record values of rows of that provider in that
class, the baseline is absent when at most 2 such values exist, and a numeric
cell whose class has an absent baseline or a zero standard deviation is
rendered green no matter what value it holds. -/
theorem C2_baseline_policy (rows : List ActivityRow) (p : String) (wk : Bool) :
    (∀ q ∈ qualifying rows p wk, 0 < q ∧
      ∃ r ∈ rows, r.provider = p ∧ is_weekend r.activityDate = wk ∧
        r.records = RecVal.num q) ∧
    ((qualifying rows p wk).length ≤ 2 → provider_stats rows p wk = none) ∧
    (∀ d n, is_weekend d = wk →
      (provider_stats rows p wk = none ∨
        (∃ st, provider_stats rows p wk = some st ∧ st.std = 0)) →
      map_status (pivot_records rows p d) = MappedCell.intval n →
      cellFill rows p d = Fill.green) := by
  refine ⟨?_, ?_, ?_⟩
  · intro q hq
    unfold qualifying at hq
    rw [List.mem_filterMap] at hq
    obtain ⟨r, hr, hmatch⟩ := hq
    rw [List.mem_filter] at hr
    obtain ⟨hrmem, hcond⟩ := hr
    simp only [Bool.and_eq_true, beq_iff_eq] at hcond
    rcases hrec : r.records with _ | q0 | _ <;> rw [hrec] at hmatch
    · simp at hmatch
    · have hmatch2 : (if 0 < q0 then some q0 else none) = some q := hmatch
      by_cases hpos : 0 < q0
      · rw [if_pos hpos] at hmatch2
        obtain rfl : q0 = q := by simpa using hmatch2
        exact ⟨hpos, r, hrmem, hcond.1, hcond.2, hrec⟩
      · rw [if_neg hpos] at hmatch2
        simp at hmatch2
    · simp at hmatch
  · intro hlen
    rw [provider_stats_def, if_neg (not_lt.mpr hlen)]
  · intro d n hwk hstats hcell
    unfold cellFill
    rw [hwk, hcell]
    rcases hstats with h | ⟨st, hsome, hzero⟩
    · rw [h]
      rfl
    · rw [hsome, classifyCell_intval, if_neg (by rw [hzero]; exact lt_irrefl 0)]

def exRows2 : List ActivityRow := [⟨"A", 0, RecVal.num 5⟩, ⟨"A", 1, RecVal.num 1000000⟩]

/-- Witness for claim C2: a provider with only 2 qualifying weekday values has no
weekday baseline, and its extreme non-missing weekday cell is still green. -/
theorem C2_baseline_policy_witness :
    provider_stats exRows2 "A" false = none ∧
    cellFill exRows2 "A" 1 = Fill.green := by
  have hnone : provider_stats exRows2 "A" false = none :=
    (C2_baseline_policy exRows2 "A" false).2.1 (by decide)
  refine ⟨hnone, ?_⟩
  exact (C2_baseline_policy exRows2 "A" false).2.2 1 1000000 rfl (Or.inl hnone) (by decide)

lemma grid_index_spec {α : Type} [LinearOrder α] [DecidableEq α] (l : List α) :
    List.Sorted (fun a b => a ≤ b) (l.dedup.mergeSort (fun a b => decide (a ≤ b))) ∧
    (l.dedup.mergeSort (fun a b => decide (a ≤ b))).Nodup ∧
    ∀ a, (a ∈ l.dedup.mergeSort (fun a b => decide (a ≤ b)) ↔ a ∈ l) := by
  refine ⟨?_, ?_, fun a => ?_⟩
  · exact List.sorted_mergeSort' l.dedup
  · exact ((List.mergeSort_perm l.dedup _).nodup_iff).mpr (List.nodup_dedup l)
  · rw [List.mem_mergeSort, List.mem_dedup]

/-- Claim C4: the grid has one row per distinct provider, in sorted order without
duplicates, and one column per distinct date, in ascending order without
duplicates, and a provider/date combination with no input row yields an
absent cell that map_status classifies MISSING. -/
theorem C4_pivot_grid (rows : List ActivityRow) :
    List.Sorted (fun a b => a ≤ b) (gridProviders rows) ∧
    (gridProviders rows).Nodup ∧
    (∀ p, p ∈ gridProviders rows ↔ ∃ r ∈ rows, r.provider = p) ∧
    List.Sorted (fun a b => a ≤ b) (gridDates rows) ∧
    (gridDates rows).Nodup ∧
    (∀ d, d ∈ gridDates rows ↔ ∃ r ∈ rows, r.activityDate = d) ∧
    (∀ p d, (∀ r ∈ rows, ¬(r.provider = p ∧ r.activityDate = d)) →
      pivot_records rows p d = RecVal.na ∧
      map_status (pivot_records rows p d) = MappedCell.missing) := by
  obtain ⟨hs1, hn1, hm1⟩ := grid_index_spec (rows.map ActivityRow.provider)
  obtain ⟨hs2, hn2, hm2⟩ := grid_index_spec (rows.map ActivityRow.activityDate)
  refine ⟨hs1, hn1, fun p => ?_, hs2, hn2, fun d => ?_, fun p d h => ?_⟩
  · unfold gridProviders
    rw [hm1 p]
    exact List.mem_map
  · unfold gridDates
    rw [hm2 d]
    exact List.mem_map
  · have hna : pivot_records rows p d = RecVal.na := by
      unfold pivot_records
      have hnone : rows.find? (fun r => r.provider == p && r.activityDate == d) = none := by
        rw [List.find?_eq_none]
        intro r hr
        simp only [Bool.and_eq_true, beq_iff_eq]
        exact fun hc => h r hr hc
      rw [hnone]
    exact ⟨hna, by rw [hna]; rfl⟩

def exRows4 : List ActivityRow :=
  [⟨"A", 19723, RecVal.num 5⟩, ⟨"B", 19723, RecVal.num 6⟩, ⟨"A", 19724, RecVal.num 7⟩]

/-- Witness for claim C4: with providers A, B and the two dates 2024-01-01 (epoch day
19723) and 2024-01-02, both providers and both dates index the grid, and the
absent combination B at 19724 is a MISSING cell. -/
theorem C4_pivot_grid_witness :
    ("A" ∈ gridProviders exRows4 ∧ "B" ∈ gridProviders exRows4) ∧
    ((19723 : ℤ) ∈ gridDates exRows4 ∧ (19724 : ℤ) ∈ gridDates exRows4) ∧
    map_status (pivot_records exRows4 "B" 19724) = MappedCell.missing := by
  refine ⟨⟨?_, ?_⟩, ⟨?_, ?_⟩, ?_⟩
  · exact ((C4_pivot_grid exRows4).2.2.1 "A").mpr
      ⟨⟨"A", 19723, RecVal.num 5⟩, by simp [exRows4], rfl⟩
  · exact ((C4_pivot_grid exRows4).2.2.1 "B").mpr
      ⟨⟨"B", 19723, RecVal.num 6⟩, by simp [exRows4], rfl⟩
  · exact ((C4_pivot_grid exRows4).2.2.2.2.2.1 19723).mpr
      ⟨⟨"A", 19723, RecVal.num 5⟩, by simp [exRows4], rfl⟩
  · exact ((C4_pivot_grid exRows4).2.2.2.2.2.1 19724).mpr
      ⟨⟨"A", 19724, RecVal.num 7⟩, by simp [exRows4], rfl⟩
  · exact ((C4_pivot_grid exRows4).2.2.2.2.2.2 "B" 19724 (by decide)).2
